import Mathlib

set_option linter.unusedVariables false
set_option maxRecDepth 100000

/-! Shallow embedding of the milientscraper per-company decision pipeline
(src/fast_processor.py, function process_companies_fast) and of the team
analyzer entry point (src/gemini_classifier.py, function
analyze_team_members). Collaborator calls (website scraper, relevance
classifier, team analyzer) are modelled as per-company oracles; a Python
exception raised by a call is modelled as an Except.error value that the
caller either catches (the try/except blocks around the two AI calls) or
propagates (any other raise). -/

/-- Cleaned page data returned by the scraper for one page; the pipeline
only reads the text field. -/
structure Page where
  text : String
deriving DecidableEq, Repr

/-- Return value of website_scraper.scrape_company_pages as consumed by the
pipeline: four optional pages plus an optional top-level error string.
The employee_count and business_description entries of the Python dict are
never read by process_companies_fast and are omitted. -/
structure ScrapeResult where
  homepage : Option Page
  about_page : Option Page
  team_page : Option Page
  contact_page : Option Page
  error : Option String
deriving DecidableEq, Repr

/-- Return value of gemini_classifier.classify_relevance_and_contact.
Confidence is modelled as a rational number. -/
structure RelevanceAnalysis where
  is_relevant : Bool
  confidence : ℚ
  reasoning : String
  phone_number : Option String
  street_address : Option String
deriving DecidableEq, Repr

/-- Return value of gemini_classifier.analyze_team_members (the Python
TeamMemberCount pydantic model): employee_count is a Python int, so it is
modelled as an integer that may be negative. -/
structure TeamAnalysis where
  employee_count : Int
  confidence : ℚ
  names_found : List String
deriving DecidableEq, Repr

/-- One input CSV row as read by the loop of process_companies_fast.
companyName and websiteUrl hold the values after the Python lookups
company.get with defaults already applied; every other
field is the raw optional passthrough value. The source dict key Type is
modelled as the field typ. -/
structure CompanyRow where
  recordId : Option String
  companyName : String
  typ : Option String
  sector : Option String
  domainName : Option String
  numberOfEmployees : Option Int
  city : Option String
  country : Option String
  companyOwner : Option String
  createDate : Option String
  websiteUrl : String
  phoneNumber : Option String
  lastActivityDate : Option String
  countryRegion : Option String
  industry : Option String
  lifecycleStage : Option String
  streetAddress : Option String
deriving DecidableEq, Repr

/-- The result dict built for one company (the OutputRecord). Field names
mirror the dict keys of lines 48-66 of fast_processor.py; numberOfEmployees
always holds an integer because the build applies the default 11. -/
structure OutputRec where
  recordId : Option String
  companyName : String
  typ : Option String
  sector : Option String
  domainName : Option String
  numberOfEmployees : Int
  city : Option String
  country : Option String
  companyOwner : Option String
  createDate : Option String
  websiteUrl : String
  phoneNumber : Option String
  lastActivityDate : Option String
  countryRegion : Option String
  industry : Option String
  lifecycleStage : Option String
  streetAddress : Option String
deriving DecidableEq, Repr

/-- Terminal classification of one company, read off from the branch of the
loop body of process_companies_fast that appended its record. -/
inductive Disposition
  | dqNoWebsite
  | dqScrapeFailed
  | dqIrrelevant
  | dqTeamTooSmall
  | mrClassifierError
  | mrNoTeamData
  | mrTeamParseFailed
  | mrAnalyzerError
  | approved
deriving DecidableEq, Repr

/-- Outcome of one loop iteration: the appended record, its disposition,
which collaborators were invoked, and whether control fell through to the
checkpoint code at line 246 of fast_processor.py (false exactly on the
branches that issue a continue statement). -/
structure StepResult where
  record : OutputRec
  disp : Disposition
  scrapeCalled : Bool
  classifierCalled : Bool
  analyzerCalled : Bool
  fellThrough : Bool
deriving DecidableEq, Repr

/-- Behaviour of the three collaborators for one company. An Except.error
value models the call raising a Python exception; for the scraper an
Except.ok value carries the returned dict (which may itself report a
failure through its error field). -/
structure Collab where
  scrape : Except String ScrapeResult
  relevance : Except String RelevanceAnalysis
  team : Except String TeamAnalysis
deriving Repr

/-- Truthiness of an optional string under Python: None and the empty
string are falsy. -/
def truthyOpt : Option String → Bool
  | none => false
  | some s => !s.isEmpty

/-- The base result dict of lines 48-66: every passthrough field copied,
with the default 11 applied for a missing Number of Employees. -/
def initResult (row : CompanyRow) : OutputRec :=
  { recordId := row.recordId
    companyName := row.companyName
    typ := row.typ
    sector := row.sector
    domainName := row.domainName
    numberOfEmployees := row.numberOfEmployees.getD 11
    city := row.city
    country := row.country
    companyOwner := row.companyOwner
    createDate := row.createDate
    websiteUrl := row.websiteUrl
    phoneNumber := row.phoneNumber
    lastActivityDate := row.lastActivityDate
    countryRegion := row.countryRegion
    industry := row.industry
    lifecycleStage := row.lifecycleStage
    streetAddress := row.streetAddress }

/-- The four-field overwrite applied by every disqualification branch. -/
def dqUpdate (r : OutputRec) : OutputRec :=
  { r with
    lifecycleStage := some "other"
    companyOwner := some "no owner"
    sector := some "n/a"
    typ := some "other" }

/-- Phone overlay: written only when the extracted phone number is truthy. -/
def setPhone (ra : RelevanceAnalysis) (r : OutputRec) : OutputRec :=
  if truthyOpt ra.phone_number then { r with phoneNumber := ra.phone_number } else r

/-- Street address overlay: written only when the extracted address is
truthy. -/
def setAddr (ra : RelevanceAnalysis) (r : OutputRec) : OutputRec :=
  if truthyOpt ra.street_address then { r with streetAddress := ra.street_address } else r

/-- Contact enrichment from the first AI call: phone then address. -/
def applyContact (ra : RelevanceAnalysis) (r : OutputRec) : OutputRec :=
  setAddr ra (setPhone ra r)

/-- The fixed confidence threshold 0.8 of line 117, written as the reduced
fraction 4/5 so that it evaluates by kernel reduction (see
confThreshold_eq_officialLiteral below). -/
def confThreshold : Rat := ⟨4, 5, by decide, by decide⟩

/-- Owner tiers of the approval branch (lines 204-209). -/
def tierOwner (tc : Int) : String :=
  if 100 ≤ tc then "Matt" else if 16 ≤ tc then "Ellinor" else "James"

/-- One iteration of the company loop of process_companies_fast
(lines 39-253 of fast_processor.py), up to but excluding the checkpoint
code. An uncaught exception (only possible from the scrape call at line 82,
which sits outside every try block) is propagated as Except.error. -/
def processCompanyStep (row : CompanyRow) (c : Collab) : Except String StepResult :=
  if row.websiteUrl.isEmpty then
    Except.ok ⟨dqUpdate (initResult row), Disposition.dqNoWebsite, false, false, false, false⟩
  else
    match c.scrape with
    | Except.error e => Except.error e
    | Except.ok scraping =>
      if scraping.error.isSome then
        Except.ok ⟨dqUpdate (initResult row), Disposition.dqScrapeFailed, true, false, false, false⟩
      else
        match c.relevance with
        | Except.error _ =>
          Except.ok ⟨initResult row, Disposition.mrClassifierError, true, true, false, false⟩
        | Except.ok ra =>
          if ra.is_relevant = false ∧ confThreshold < ra.confidence then
            Except.ok ⟨dqUpdate (initResult row), Disposition.dqIrrelevant, true, true, false, false⟩
          else
            if (scraping.team_page.isSome || scraping.about_page.isSome) = false then
              Except.ok ⟨applyContact ra (initResult row), Disposition.mrNoTeamData,
                true, true, false, false⟩
            else
              match c.team with
              | Except.error _ =>
                Except.ok ⟨applyContact ra (initResult row), Disposition.mrAnalyzerError,
                  true, true, true, true⟩
              | Except.ok ta =>
                if 1 ≤ ta.employee_count ∧ ta.employee_count < 5 then
                  Except.ok ⟨{ dqUpdate (initResult row) with
                      numberOfEmployees := ta.employee_count },
                    Disposition.dqTeamTooSmall, true, true, true, true⟩
                else if ta.employee_count = 0 then
                  Except.ok ⟨applyContact ra (initResult row), Disposition.mrTeamParseFailed,
                    true, true, true, true⟩
                else
                  Except.ok ⟨applyContact ra { initResult row with
                      companyOwner := some (tierOwner ta.employee_count)
                      numberOfEmployees := ta.employee_count },
                    Disposition.approved, true, true, true, true⟩

/-- Mutable state of one batch run: the accumulated results list, the
checkpoints written so far (processed count paired with the snapshot), and
a log of every StepResult in order. -/
structure RunState where
  results : List OutputRec
  checkpoints : List (Nat × List OutputRec)
  log : List StepResult
deriving DecidableEq, Repr

/-- One iteration of the batch loop including the checkpoint code of
lines 246-251: the snapshot is taken only when control fell through (no
continue was executed) and the processed count is a multiple of 10. -/
def runStep (st : RunState) (rc : CompanyRow × Collab) : Except String RunState :=
  match processCompanyStep rc.1 rc.2 with
  | Except.error e => Except.error e
  | Except.ok sr =>
    Except.ok
      { results := st.results ++ [sr.record]
        checkpoints :=
          if sr.fellThrough && (st.results.length + 1) % 10 == 0 then
            st.checkpoints ++ [(st.results.length + 1, st.results ++ [sr.record])]
          else st.checkpoints
        log := st.log ++ [sr] }

/-- The company loop of process_companies_fast over a whole batch, with the
collaborator behaviour of each company given alongside its row. An
uncaught exception aborts the run, losing the accumulated state. -/
def process_companies_fast (batch : List (CompanyRow × Collab)) : Except String RunState :=
  batch.foldlM runStep ⟨[], [], []⟩

/-- True exactly on Except.error, modelling a call that raised. -/
def isErr {ε α : Type} : Except ε α → Bool
  | Except.error _ => true
  | Except.ok _ => false

/-! Model of gemini_classifier.analyze_team_members (lines 115-171). The
external LLM chain is an oracle from the assembled content string to a
TeamAnalysis; the function returns the analysis together with a flag that
is true exactly when the oracle was invoked. -/

/-- Input dict of analyze_team_members; missing keys are the empty string,
as passed by process_companies_fast. -/
structure TeamTexts where
  team_text : String
  about_text : String
deriving DecidableEq, Repr

/-- Characters removed by the Python str.strip default. -/
def pyIsSpace (ch : Char) : Bool :=
  ch == ' ' || ch == '\t' || ch == '\n' || ch == '\r' || ch == '\x0b' || ch == '\x0c'

/-- Python `not s.strip()`: the string strips to empty, i.e. every
character is whitespace. -/
def stripsToEmpty (s : String) : Bool :=
  s.toList.all pyIsSpace

/-- Content assembly of lines 119-124: each section is added only when its
input is truthy (a non-empty string). -/
def buildTeamContent (d : TeamTexts) : String :=
  let c := if d.team_text.isEmpty then "" else "=== TEAM PAGE ===\n\n" ++ d.team_text
  if d.about_text.isEmpty then c else c ++ "\n\n=== ABOUT PAGE ===\n\n" ++ d.about_text

/-- analyze_team_members: short-circuits to a zero analysis when the
assembled content strips to empty, otherwise invokes the LLM oracle on the
content. The Bool records whether the oracle was invoked. -/
def analyze_team_members (d : TeamTexts) (llm : String → TeamAnalysis) :
    TeamAnalysis × Bool :=
  let content := buildTeamContent d
  if stripsToEmpty content then (⟨0, 0, []⟩, false) else (llm content, true)

/-! Model of the batch summary block (lines 278-308 of fast_processor.py).
The Python code classifies records by searching substrings inside str(r),
the repr of the whole result dict; reprRec reproduces that repr text. -/

/-- Whether pat is a leading run of hay. -/
def chMatch : List Char → List Char → Bool
  | [], _ => true
  | _ :: _, [] => false
  | a :: as, b :: bs => a == b && chMatch as bs

/-- Whether pat occurs inside hay, as the Python `pat in hay` test. -/
def chSub (pat : List Char) : List Char → Bool
  | [] => chMatch pat []
  | c :: t => chMatch pat (c :: t) || chSub pat t

/-- Substring containment on strings. -/
def strContains (hay pat : String) : Bool :=
  chSub pat.toList hay.toList

/-- The single-quote character used by the Python dict repr. -/
def pySq : String := "\x27"

/-- A Python-quoted string literal. -/
def pyq (s : String) : String := pySq ++ s ++ pySq

/-- Repr of an optional string value: None or a quoted literal. -/
def reprOptStr : Option String → String
  | none => "None"
  | some s => pyq s

/-- One key-value entry of the dict repr. -/
def kvRepr (k v : String) : String := pyq k ++ ": " ++ v

/-- The Python str(r) of a result dict, with the insertion order of
lines 48-66 (updates never add keys, so the order is stable). -/
def reprRec (r : OutputRec) : String :=
  "\x7b" ++ String.intercalate ", "
    [ kvRepr "Record ID" (reprOptStr r.recordId)
    , kvRepr "Company name" (pyq r.companyName)
    , kvRepr "Type" (reprOptStr r.typ)
    , kvRepr "Sector" (reprOptStr r.sector)
    , kvRepr "Company Domain Name" (reprOptStr r.domainName)
    , kvRepr "Number of Employees" (toString r.numberOfEmployees)
    , kvRepr "City" (reprOptStr r.city)
    , kvRepr "Country" (reprOptStr r.country)
    , kvRepr "Company owner" (reprOptStr r.companyOwner)
    , kvRepr "Create Date" (reprOptStr r.createDate)
    , kvRepr "Website URL" (pyq r.websiteUrl)
    , kvRepr "Phone Number" (reprOptStr r.phoneNumber)
    , kvRepr "Last Activity Date" (reprOptStr r.lastActivityDate)
    , kvRepr "Country/Region" (reprOptStr r.countryRegion)
    , kvRepr "Industry" (reprOptStr r.industry)
    , kvRepr "Lifecycle Stage" (reprOptStr r.lifecycleStage)
    , kvRepr "Street Address" (reprOptStr r.streetAddress)
    ] ++ "\x7d"

/-- The figures printed by the batch summary. -/
structure BatchSummary where
  total : Nat
  approved : Nat
  dq_no_website : Nat
  dq_broken : Nat
  dq_irrelevant : Nat
  dq_small_team : Nat
  total_ai_calls : Nat
  team_ai_calls : Nat
deriving DecidableEq, Repr

/-- The summary computation of lines 278-308, translated clause by clause:
approved counts records whose Lifecycle Stage differs from other; the three
reason counts search marker text inside str(r); total_ai_calls and
team_ai_calls are the two printed AI-efficiency figures. -/
def batchSummary (results : List OutputRec) : BatchSummary :=
  let approved := (results.filter (fun r => !(r.lifecycleStage == some "other"))).length
  { total := results.length
    approved := approved
    dq_no_website := (results.filter (fun r => r.websiteUrl.isEmpty)).length
    dq_broken := (results.filter (fun r =>
      r.lifecycleStage == some "other" && strContains (reprRec r) "Scraping failed")).length
    dq_irrelevant := (results.filter (fun r =>
      r.lifecycleStage == some "other" && strContains (reprRec r) "Irrelevant")).length
    dq_small_team := (results.filter (fun r =>
      r.lifecycleStage == some "other" && strContains (reprRec r) "small")).length
    total_ai_calls := (results.filter (fun r =>
      !(r.lifecycleStage == some "other") || strContains (reprRec r) "Irrelevant")).length
    team_ai_calls := approved }

/-- Ground truth from the run log: companies with the given disposition. -/
def countDisp (log : List StepResult) (d : Disposition) : Nat :=
  (log.filter (fun e => e.disp == d)).length

/-- Ground truth from the run log: relevance-classifier calls attempted. -/
def classifierCalls (log : List StepResult) : Nat :=
  (log.filter (fun e => e.classifierCalled)).length

/-- Ground truth from the run log: team-analyzer calls attempted. -/
def analyzerCalls (log : List StepResult) : Nat :=
  (log.filter (fun e => e.analyzerCalled)).length

deriving instance DecidableEq for Except

/-! Concrete rows and collaborator behaviours used by witnesses,
counterexamples and code-bug evaluations. -/

/-- A relevant company row with a website and no passthrough owner. -/
def rowA : CompanyRow :=
  { recordId := some "1"
    companyName := "Alpha"
    typ := none
    sector := none
    domainName := none
    numberOfEmployees := none
    city := none
    country := none
    companyOwner := none
    createDate := none
    websiteUrl := "http://a"
    phoneNumber := none
    lastActivityDate := none
    countryRegion := none
    industry := none
    lifecycleStage := some "lead"
    streetAddress := none }

/-- The same row with an empty website URL. -/
def rowNoWeb : CompanyRow := { rowA with websiteUrl := "" }

/-- A second company row. -/
def rowB : CompanyRow := { rowA with companyName := "Beta", websiteUrl := "http://b" }

/-- Scrape result with a homepage only. -/
def scrOk : ScrapeResult :=
  { homepage := some ⟨"home"⟩, about_page := none, team_page := none
    contact_page := none, error := none }

/-- Scrape result with a homepage and a team page. -/
def scrTeam : ScrapeResult := { scrOk with team_page := some ⟨"team"⟩ }

/-- Scrape result reporting a failure through its error field. -/
def scrErr : ScrapeResult := { scrOk with error := some "timeout" }

/-- Relevance signal: relevant with confidence 0.9. -/
def raRel : RelevanceAnalysis :=
  { is_relevant := true, confidence := ⟨9, 10, by decide, by decide⟩, reasoning := "fits"
    phone_number := none, street_address := none }

/-- Relevance signal: irrelevant with confidence 0.9. -/
def raIrr : RelevanceAnalysis := { raRel with is_relevant := false }

/-- Team analysis with the given employee count. -/
def taOf (n : Int) : TeamAnalysis :=
  { employee_count := n, confidence := 1, names_found := [] }

/-- Collaborators: scrape ok without team pages, relevant, analyzer ready. -/
def collabNoTeam : Collab :=
  { scrape := Except.ok scrOk, relevance := Except.ok raRel, team := Except.ok (taOf 5) }

/-- Collaborators that would all raise; never consulted on a NoWebsite row. -/
def collabDummy : Collab :=
  { scrape := Except.error "unused", relevance := Except.error "unused"
    team := Except.error "unused" }

/-- Collaborators leading to an Irrelevant disqualification. -/
def collabIrr : Collab :=
  { scrape := Except.ok scrOk, relevance := Except.ok raIrr, team := Except.error "unused" }

/-- Collaborators leading to a TeamTooSmall disqualification. -/
def collabSmall : Collab :=
  { scrape := Except.ok scrTeam, relevance := Except.ok raRel, team := Except.ok (taOf 3) }

/-- Collaborators whose scraper raises an exception. -/
def collabThrow : Collab :=
  { scrape := Except.error "boom", relevance := Except.ok raRel, team := Except.ok (taOf 5) }

/-- Collaborators leading to approval with a team of 20. -/
def collabTeam20 : Collab :=
  { scrape := Except.ok scrTeam, relevance := Except.ok raRel, team := Except.ok (taOf 20) }

/-- Collaborators whose analyzer reports a negative count. -/
def collabNeg : Collab :=
  { scrape := Except.ok scrTeam, relevance := Except.ok raRel, team := Except.ok (taOf (-3)) }

/-- Collaborators whose scraper reports an error in its result dict. -/
def collabScrapeErr : Collab :=
  { scrape := Except.ok scrErr, relevance := Except.error "unused"
    team := Except.error "unused" }

/-- Collaborators whose relevance classifier raises. -/
def collabRelErr : Collab :=
  { scrape := Except.ok scrOk, relevance := Except.error "llm down"
    team := Except.ok (taOf 5) }

/-- Collaborators whose team analyzer raises. -/
def collabTeamErr : Collab :=
  { scrape := Except.ok scrTeam, relevance := Except.ok raRel
    team := Except.error "llm down" }

/-! Projection lemmas: contact enrichment never touches the lifecycle,
sector, type, owner or employee-count fields. -/

theorem setPhone_lifecycleStage (ra : RelevanceAnalysis) (r : OutputRec) :
    (setPhone ra r).lifecycleStage = r.lifecycleStage := by
  unfold setPhone; split <;> rfl

theorem setPhone_sector (ra : RelevanceAnalysis) (r : OutputRec) :
    (setPhone ra r).sector = r.sector := by
  unfold setPhone; split <;> rfl

theorem setPhone_typ (ra : RelevanceAnalysis) (r : OutputRec) :
    (setPhone ra r).typ = r.typ := by
  unfold setPhone; split <;> rfl

theorem setPhone_companyOwner (ra : RelevanceAnalysis) (r : OutputRec) :
    (setPhone ra r).companyOwner = r.companyOwner := by
  unfold setPhone; split <;> rfl

theorem setPhone_numberOfEmployees (ra : RelevanceAnalysis) (r : OutputRec) :
    (setPhone ra r).numberOfEmployees = r.numberOfEmployees := by
  unfold setPhone; split <;> rfl

theorem setAddr_lifecycleStage (ra : RelevanceAnalysis) (r : OutputRec) :
    (setAddr ra r).lifecycleStage = r.lifecycleStage := by
  unfold setAddr; split <;> rfl

theorem setAddr_sector (ra : RelevanceAnalysis) (r : OutputRec) :
    (setAddr ra r).sector = r.sector := by
  unfold setAddr; split <;> rfl

theorem setAddr_typ (ra : RelevanceAnalysis) (r : OutputRec) :
    (setAddr ra r).typ = r.typ := by
  unfold setAddr; split <;> rfl

theorem setAddr_companyOwner (ra : RelevanceAnalysis) (r : OutputRec) :
    (setAddr ra r).companyOwner = r.companyOwner := by
  unfold setAddr; split <;> rfl

theorem setAddr_numberOfEmployees (ra : RelevanceAnalysis) (r : OutputRec) :
    (setAddr ra r).numberOfEmployees = r.numberOfEmployees := by
  unfold setAddr; split <;> rfl

theorem applyContact_lifecycleStage (ra : RelevanceAnalysis) (r : OutputRec) :
    (applyContact ra r).lifecycleStage = r.lifecycleStage := by
  unfold applyContact; rw [setAddr_lifecycleStage, setPhone_lifecycleStage]

theorem applyContact_sector (ra : RelevanceAnalysis) (r : OutputRec) :
    (applyContact ra r).sector = r.sector := by
  unfold applyContact; rw [setAddr_sector, setPhone_sector]

theorem applyContact_typ (ra : RelevanceAnalysis) (r : OutputRec) :
    (applyContact ra r).typ = r.typ := by
  unfold applyContact; rw [setAddr_typ, setPhone_typ]

theorem applyContact_companyOwner (ra : RelevanceAnalysis) (r : OutputRec) :
    (applyContact ra r).companyOwner = r.companyOwner := by
  unfold applyContact; rw [setAddr_companyOwner, setPhone_companyOwner]

theorem applyContact_numberOfEmployees (ra : RelevanceAnalysis) (r : OutputRec) :
    (applyContact ra r).numberOfEmployees = r.numberOfEmployees := by
  unfold applyContact; rw [setAddr_numberOfEmployees, setPhone_numberOfEmployees]

/-- C8: short-circuit behaviour — a NoWebsite exit invokes no collaborator
at all; ScrapeFailed and Irrelevant exits never call the team analyzer; a
NoTeamData exit never calls the team analyzer. -/
theorem C8_short_circuit (row : CompanyRow) (c : Collab) (res : StepResult)
    (h : processCompanyStep row c = Except.ok res) :
    (res.disp = Disposition.dqNoWebsite →
      res.scrapeCalled = false ∧ res.classifierCalled = false ∧ res.analyzerCalled = false) ∧
    (res.disp = Disposition.dqScrapeFailed →
      res.classifierCalled = false ∧ res.analyzerCalled = false) ∧
    (res.disp = Disposition.dqIrrelevant → res.analyzerCalled = false) ∧
    (res.disp = Disposition.mrNoTeamData → res.analyzerCalled = false) := by
  unfold processCompanyStep at h
  split at h
  · injection h with h
    subst h
    simp
  · split at h
    · exact Except.noConfusion h
    · split at h
      · injection h with h
        subst h
        simp
      · split at h
        · injection h with h
          subst h
          simp
        · split at h
          · injection h with h
            subst h
            simp
          · split at h
            · injection h with h
              subst h
              simp
            · split at h
              · injection h with h
                subst h
                simp
              · split at h
                · injection h with h
                  subst h
                  simp
                · split at h
                  · injection h with h
                    subst h
                    simp
                  · injection h with h
                    subst h
                    simp

/-- C6: every disqualification overwrites Lifecycle Stage, Company owner,
Sector and Type together; ManualReview and Approved keep the passthrough
Lifecycle Stage, Sector and Type, with Approved setting the owner to the
tier assigned from the team count. -/
theorem C6_disposition_field_frame (row : CompanyRow) (c : Collab) (res : StepResult)
    (h : processCompanyStep row c = Except.ok res) :
    ((res.disp = Disposition.dqNoWebsite ∨ res.disp = Disposition.dqScrapeFailed ∨
      res.disp = Disposition.dqIrrelevant ∨ res.disp = Disposition.dqTeamTooSmall) →
      res.record.lifecycleStage = some "other" ∧ res.record.companyOwner = some "no owner" ∧
      res.record.sector = some "n/a" ∧ res.record.typ = some "other") ∧
    ((res.disp = Disposition.mrClassifierError ∨ res.disp = Disposition.mrNoTeamData ∨
      res.disp = Disposition.mrTeamParseFailed ∨ res.disp = Disposition.mrAnalyzerError ∨
      res.disp = Disposition.approved) →
      res.record.lifecycleStage = row.lifecycleStage ∧ res.record.sector = row.sector ∧
      res.record.typ = row.typ) ∧
    (res.disp = Disposition.approved →
      Except.map (fun ta => some (tierOwner ta.employee_count)) c.team =
        Except.ok res.record.companyOwner) := by
  unfold processCompanyStep at h
  split at h
  · injection h with h
    subst h
    simp [dqUpdate, initResult]
  · split at h
    · exact Except.noConfusion h
    · split at h
      · injection h with h
        subst h
        simp [dqUpdate, initResult]
      · split at h
        · injection h with h
          subst h
          simp [initResult]
        · split at h
          · injection h with h
            subst h
            simp [dqUpdate, initResult]
          · split at h
            · injection h with h
              subst h
              simp [applyContact_lifecycleStage, applyContact_sector, applyContact_typ,
                initResult]
            · split at h
              · injection h with h
                subst h
                simp [applyContact_lifecycleStage, applyContact_sector, applyContact_typ,
                  initResult]
              · split at h
                · injection h with h
                  subst h
                  simp [dqUpdate, initResult]
                · split at h
                  · injection h with h
                    subst h
                    simp [applyContact_lifecycleStage, applyContact_sector, applyContact_typ,
                      initResult]
                  · injection h with h
                    subst h
                    rename_i ta heq _ _
                    refine ⟨by simp, ?_, ?_⟩
                    · intro _
                      simp [applyContact_lifecycleStage, applyContact_sector, applyContact_typ,
                        initResult]
                    · intro _
                      rw [heq]
                      simp [Except.map, applyContact_companyOwner]

/-- Helper: the C5 conclusions in any branch that is not the Irrelevant
disqualification and whose guard condition failed. -/
theorem notIrrelevantBranch (ra : RelevanceAnalysis) (d : Disposition)
    (hd : d ≠ Disposition.dqIrrelevant)
    (hn : ¬(ra.is_relevant = false ∧ confThreshold < ra.confidence)) :
    (ra.is_relevant = false → (d = Disposition.dqIrrelevant ↔ confThreshold < ra.confidence)) ∧
    (ra.is_relevant = false → ra.confidence = confThreshold → d ≠ Disposition.dqIrrelevant) ∧
    (ra.is_relevant = true → d ≠ Disposition.dqIrrelevant) := by
  refine ⟨?_, fun _ _ => hd, fun _ => hd⟩
  intro hf
  constructor
  · intro hdq
    exact absurd hdq hd
  · intro hlt
    exact absurd ⟨hf, hlt⟩ hn

/-- C5: when the relevance call was made and succeeded, the company is
disqualified as Irrelevant exactly when is_relevant is false and the
confidence exceeds the 0.8 threshold strictly; confidence equal to the
threshold never disqualifies, and a relevant signal never disqualifies. -/
theorem C5_irrelevant_threshold (row : CompanyRow) (c : Collab) (res : StepResult)
    (ra : RelevanceAnalysis)
    (h : processCompanyStep row c = Except.ok res)
    (hra : c.relevance = Except.ok ra)
    (hcalled : res.classifierCalled = true) :
    (ra.is_relevant = false →
      (res.disp = Disposition.dqIrrelevant ↔ confThreshold < ra.confidence)) ∧
    (ra.is_relevant = false → ra.confidence = confThreshold →
      res.disp ≠ Disposition.dqIrrelevant) ∧
    (ra.is_relevant = true → res.disp ≠ Disposition.dqIrrelevant) := by
  unfold processCompanyStep at h
  split at h
  · injection h with h
    subst h
    simp at hcalled
  · split at h
    · exact Except.noConfusion h
    · split at h
      · injection h with h
        subst h
        simp at hcalled
      · split at h
        · rename_i e heq
          rw [hra] at heq
          exact Except.noConfusion heq
        · rename_i ra2 heq
          rw [hra] at heq
          injection heq with heq
          subst heq
          split at h
          · rename_i hcond
            injection h with h
            subst h
            refine ⟨fun _ => ⟨fun _ => hcond.2, fun _ => rfl⟩, ?_, ?_⟩
            · intro _ hconf _
              rw [hconf] at hcond
              exact absurd hcond.2 (lt_irrefl confThreshold)
            · intro htrue
              rw [htrue] at hcond
              exact absurd hcond.1 (by simp)
          · rename_i hncond
            split at h
            · injection h with h
              subst h
              exact notIrrelevantBranch ra _ (by simp) hncond
            · split at h
              · injection h with h
                subst h
                exact notIrrelevantBranch ra _ (by simp) hncond
              · split at h
                · injection h with h
                  subst h
                  exact notIrrelevantBranch ra _ (by simp) hncond
                · split at h
                  · injection h with h
                    subst h
                    exact notIrrelevantBranch ra _ (by simp) hncond
                  · injection h with h
                    subst h
                    exact notIrrelevantBranch ra _ (by simp) hncond

/-- Tier evaluation below 16. -/
theorem tierOwner_james (tc : Int) (h : tc < 16) : tierOwner tc = "James" := by
  unfold tierOwner
  rw [if_neg (by omega), if_neg (by omega)]

/-- Tier evaluation between 16 and 99. -/
theorem tierOwner_ellinor (tc : Int) (h1 : 16 ≤ tc) (h2 : tc < 100) :
    tierOwner tc = "Ellinor" := by
  unfold tierOwner
  rw [if_neg (by omega), if_pos h1]

/-- Tier evaluation at 100 and above. -/
theorem tierOwner_matt (tc : Int) (h : 100 ≤ tc) : tierOwner tc = "Matt" := by
  unfold tierOwner
  rw [if_pos h]

/-- C4: when the team-analysis call was made and succeeded with a
non-negative employee count n, the outcome is ManualReview(TeamParseFailed)
for n = 0, Disqualified(TeamTooSmall) with the count overlaid for
1 <= n < 5, and Approved with the count overlaid and the tiered owner
(James below 16, Ellinor from 16 to 99, Matt from 100) for n >= 5. -/
theorem C4_team_size_rules (row : CompanyRow) (c : Collab) (res : StepResult)
    (ta : TeamAnalysis)
    (h : processCompanyStep row c = Except.ok res)
    (hta : c.team = Except.ok ta)
    (hcalled : res.analyzerCalled = true)
    (hnn : 0 ≤ ta.employee_count) :
    (ta.employee_count = 0 → res.disp = Disposition.mrTeamParseFailed) ∧
    (1 ≤ ta.employee_count ∧ ta.employee_count < 5 →
      res.disp = Disposition.dqTeamTooSmall ∧
      res.record.numberOfEmployees = ta.employee_count) ∧
    (5 ≤ ta.employee_count →
      res.disp = Disposition.approved ∧
      res.record.numberOfEmployees = ta.employee_count ∧
      res.record.companyOwner = some (tierOwner ta.employee_count) ∧
      (ta.employee_count < 16 → res.record.companyOwner = some "James") ∧
      (16 ≤ ta.employee_count ∧ ta.employee_count < 100 →
        res.record.companyOwner = some "Ellinor") ∧
      (100 ≤ ta.employee_count → res.record.companyOwner = some "Matt")) := by
  unfold processCompanyStep at h
  split at h
  · injection h with h
    subst h
    simp at hcalled
  · split at h
    · exact Except.noConfusion h
    · split at h
      · injection h with h
        subst h
        simp at hcalled
      · split at h
        · injection h with h
          subst h
          simp at hcalled
        · split at h
          · injection h with h
            subst h
            simp at hcalled
          · split at h
            · injection h with h
              subst h
              simp at hcalled
            · split at h
              · rename_i e heq
                rw [hta] at heq
                exact Except.noConfusion heq
              · rename_i ta2 heq
                rw [hta] at heq
                injection heq with heq
                subst heq
                split at h
                · rename_i hcond
                  injection h with h
                  subst h
                  refine ⟨fun hz => by omega, fun _ => ⟨rfl, by simp⟩, fun h5 => by omega⟩
                · rename_i hnsmall
                  split at h
                  · rename_i hz
                    injection h with h
                    subst h
                    refine ⟨fun _ => rfl, fun hr => by omega, fun h5 => by omega⟩
                  · rename_i hnz
                    injection h with h
                    subst h
                    refine ⟨fun hz => absurd hz hnz, fun hr => absurd hr hnsmall, ?_⟩
                    intro h5
                    refine ⟨rfl, by simp [applyContact_numberOfEmployees], ?_, ?_, ?_, ?_⟩
                    · simp [applyContact_companyOwner]
                    · intro h16
                      simp [applyContact_companyOwner, tierOwner_james _ h16]
                    · intro hmid
                      simp [applyContact_companyOwner, tierOwner_ellinor _ hmid.1 hmid.2]
                    · intro h100
                      simp [applyContact_companyOwner, tierOwner_matt _ h100]

/-- C10: a successful team-analysis call with a strictly negative
employee count falls into the approval branch: the company is Approved,
the owner tier evaluates to James, and the negative count is written to
Number of Employees. -/
theorem C10_negative_count_approves (row : CompanyRow) (c : Collab) (res : StepResult)
    (ta : TeamAnalysis)
    (h : processCompanyStep row c = Except.ok res)
    (hta : c.team = Except.ok ta)
    (hcalled : res.analyzerCalled = true)
    (hneg : ta.employee_count < 0) :
    res.disp = Disposition.approved ∧
    res.record.companyOwner = some "James" ∧
    res.record.numberOfEmployees = ta.employee_count := by
  unfold processCompanyStep at h
  split at h
  · injection h with h
    subst h
    simp at hcalled
  · split at h
    · exact Except.noConfusion h
    · split at h
      · injection h with h
        subst h
        simp at hcalled
      · split at h
        · injection h with h
          subst h
          simp at hcalled
        · split at h
          · injection h with h
            subst h
            simp at hcalled
          · split at h
            · injection h with h
              subst h
              simp at hcalled
            · split at h
              · rename_i e heq
                rw [hta] at heq
                exact Except.noConfusion heq
              · rename_i ta2 heq
                rw [hta] at heq
                injection heq with heq
                subst heq
                split at h
                · rename_i hcond
                  omega
                · rename_i hnsmall
                  split at h
                  · rename_i hz
                    omega
                  · injection h with h
                    subst h
                    refine ⟨rfl, ?_, by simp [applyContact_numberOfEmployees]⟩
                    have hj : tierOwner ta.employee_count = "James" :=
                      tierOwner_james ta.employee_count (by omega)
                    simp [applyContact_companyOwner, hj]

/-- C7 (amended): whenever the scraper call returns (instead of raising),
the loop body always yields exactly one record, and a raising classifier
or analyzer call is downgraded to the matching ManualReview disposition. -/
theorem C7_no_throw_when_scraper_returns (row : CompanyRow) (c : Collab) (s : ScrapeResult)
    (hs : c.scrape = Except.ok s) :
    ∃ res, processCompanyStep row c = Except.ok res ∧
      (isErr c.relevance = true → res.classifierCalled = true →
        res.disp = Disposition.mrClassifierError) ∧
      (isErr c.team = true → res.analyzerCalled = true →
        res.disp = Disposition.mrAnalyzerError) := by
  cases hres : processCompanyStep row c with
  | error e =>
    exfalso
    unfold processCompanyStep at hres
    split at hres
    · exact Except.noConfusion hres
    · split at hres
      · rename_i e2 heq
        rw [hs] at heq
        exact Except.noConfusion heq
      · split at hres
        · exact Except.noConfusion hres
        · split at hres
          · exact Except.noConfusion hres
          · split at hres
            · exact Except.noConfusion hres
            · split at hres
              · exact Except.noConfusion hres
              · split at hres
                · exact Except.noConfusion hres
                · split at hres
                  · exact Except.noConfusion hres
                  · split at hres
                    · exact Except.noConfusion hres
                    · exact Except.noConfusion hres
  | ok res =>
    refine ⟨res, rfl, ?_, ?_⟩ <;> unfold processCompanyStep at hres
    · split at hres
      · injection hres with hres
        subst hres
        intro hx hc
        simp at hc
      · split at hres
        · exact Except.noConfusion hres
        · split at hres
          · injection hres with hres
            subst hres
            intro hx hc
            simp at hc
          · split at hres
            · injection hres with hres
              subst hres
              intro hx hc
              rfl
            · rename_i ra heq
              intro hx hc
              rw [heq] at hx
              simp [isErr] at hx
    · split at hres
      · injection hres with hres
        subst hres
        intro hx hc
        simp at hc
      · split at hres
        · exact Except.noConfusion hres
        · split at hres
          · injection hres with hres
            subst hres
            intro hx hc
            simp at hc
          · split at hres
            · injection hres with hres
              subst hres
              intro hx hc
              simp at hc
            · split at hres
              · injection hres with hres
                subst hres
                intro hx hc
                simp at hc
              · split at hres
                · injection hres with hres
                  subst hres
                  intro hx hc
                  simp at hc
                · split at hres
                  · injection hres with hres
                    subst hres
                    intro hx hc
                    rfl
                  · rename_i ta heq
                    intro hx hc
                    rw [heq] at hx
                    simp [isErr] at hx

/-- Helper: the loop body falls through to the checkpoint code exactly on
the four dispositions produced at or after the team-analysis call. -/
theorem stepFellThrough_iff (row : CompanyRow) (c : Collab) (sr : StepResult)
    (h : processCompanyStep row c = Except.ok sr) :
    sr.fellThrough = true ↔
      (sr.disp = Disposition.dqTeamTooSmall ∨ sr.disp = Disposition.mrTeamParseFailed ∨
       sr.disp = Disposition.mrAnalyzerError ∨ sr.disp = Disposition.approved) := by
  unfold processCompanyStep at h
  split at h
  · injection h with h
    subst h
    simp
  · split at h
    · exact Except.noConfusion h
    · split at h
      · injection h with h
        subst h
        simp
      · split at h
        · injection h with h
          subst h
          simp
        · split at h
          · injection h with h
            subst h
            simp
          · split at h
            · injection h with h
              subst h
              simp
            · split at h
              · injection h with h
                subst h
                simp
              · split at h
                · injection h with h
                  subst h
                  simp
                · split at h
                  · injection h with h
                    subst h
                    simp
                  · injection h with h
                    subst h
                    simp

/-- C2 (amended): after a loop iteration the record is appended; a
checkpoint holding all accumulated records is written exactly when the
iteration fell through to the checkpoint code (disposition TeamTooSmall,
TeamParseFailed, AnalyzerError or Approved) and the processed count is a
multiple of 10; iterations that exit through a continue never write one. -/
theorem C2_checkpoint_rule (st : RunState) (rc : CompanyRow × Collab) (st2 : RunState)
    (h : runStep st rc = Except.ok st2) :
    ∃ sr, processCompanyStep rc.1 rc.2 = Except.ok sr ∧
      st2.results = st.results ++ [sr.record] ∧
      (sr.fellThrough = true ↔
        (sr.disp = Disposition.dqTeamTooSmall ∨ sr.disp = Disposition.mrTeamParseFailed ∨
         sr.disp = Disposition.mrAnalyzerError ∨ sr.disp = Disposition.approved)) ∧
      (sr.fellThrough = true ∧ (st.results.length + 1) % 10 = 0 →
        st2.checkpoints = st.checkpoints ++ [(st.results.length + 1, st2.results)]) ∧
      (sr.fellThrough = false ∨ (st.results.length + 1) % 10 ≠ 0 →
        st2.checkpoints = st.checkpoints) := by
  unfold runStep at h
  split at h
  · exact Except.noConfusion h
  · rename_i sr heq
    injection h with h
    subst h
    refine ⟨sr, heq, rfl, stepFellThrough_iff rc.1 rc.2 sr heq, ?_, ?_⟩
    · intro hpos
      simp [hpos.1, hpos.2]
    · intro hneg
      rcases hneg with hft | hmod
      · simp [hft]
      · simp [hmod]

/-- C9 (amended): when both analyzer inputs are the empty string, the
assembled content is empty, so the function returns a zero count with zero
confidence and no names, and the LLM oracle is never invoked. -/
theorem C9_empty_inputs_skip_llm (llm : String → TeamAnalysis) :
    analyze_team_members ⟨"", ""⟩ llm = (⟨0, 0, []⟩, false) := rfl

/-- C9 counterexample: with a whitespace-only team text (and empty about
text) the assembled content is the team header plus the blank, which does
not strip to empty, so the LLM oracle is invoked and its answer (here a
count of 7 with a name) is returned, contradicting the claimed
zero-count-no-call contract for whitespace-only inputs. -/
theorem C9_whitespace_invokes_llm :
    (analyze_team_members ⟨" ", ""⟩ (fun _ => ⟨7, 1, ["Ann Bee"]⟩)).2 = true ∧
    (analyze_team_members ⟨" ", ""⟩ (fun _ => ⟨7, 1, ["Ann Bee"]⟩)).1.employee_count = 7 := by
  decide

/-- C1 evaluation at the failing input: a relevant company with no
passthrough owner and no team or about page exits through the
NoTeamData manual-review branch, and the Company owner field of its
record stays absent — the James default of line 140 is computed into a
local variable that is only printed, never written to the record. -/
theorem C1_manual_review_owner_not_defaulted :
    (processCompanyStep rowA collabNoTeam).map
      (fun sr => (sr.disp, sr.record.companyOwner)) =
    Except.ok (Disposition.mrNoTeamData, none) := by decide

/-- C2 counterexample: a batch of ten companies each disqualified for a
missing website produces ten records and no checkpoint at all, because
every early-exit branch continues past the checkpoint code. -/
theorem C2_no_checkpoint_for_tenth_company :
    (process_companies_fast (List.replicate 10 (rowNoWeb, collabDummy))).map
      (fun st => (st.results.length, st.checkpoints)) = Except.ok (10, []) := by decide

/-- C3 evaluation at the failing input: a two-company run with one
Irrelevant disqualification and one TeamTooSmall disqualification. The
summary reports zero classifier calls, zero irrelevant, zero analyzer
calls and zero small-team entries, while the run log shows two classifier
calls, one Irrelevant disposition, one analyzer call and one TeamTooSmall
disposition: the reason counts reconstructed by substring search inside
str(r) and the Lifecycle-based call counts do not match the run. -/
theorem C3_summary_miscounts :
    (process_companies_fast [(rowA, collabIrr), (rowB, collabSmall)]).map
      (fun st => [(batchSummary st.results).total_ai_calls, classifierCalls st.log,
        (batchSummary st.results).dq_irrelevant, countDisp st.log Disposition.dqIrrelevant,
        (batchSummary st.results).team_ai_calls, analyzerCalls st.log,
        (batchSummary st.results).dq_small_team, countDisp st.log Disposition.dqTeamTooSmall]) =
    Except.ok [0, 2, 0, 1, 0, 1, 0, 1] := by decide

/-- C7 counterexample: a raising scraper call is not caught anywhere in
the loop, so the exception escapes the pipeline boundary and the batch is
aborted with no record for the company. -/
theorem C7_scraper_raise_aborts_batch :
    process_companies_fast [(rowA, collabThrow)] = Except.error "boom" := by decide

/-- Concrete loop outcome of rowA with collabTeam20 (approved, 20 people). -/
def w4res : StepResult :=
  ⟨applyContact raRel { initResult rowA with
      companyOwner := some (tierOwner 20), numberOfEmployees := 20 },
    Disposition.approved, true, true, true, true⟩

/-- Witness for C4 at employee count 20. -/
theorem C4_team_size_rules_witness :
    processCompanyStep rowA collabTeam20 = Except.ok w4res ∧
    collabTeam20.team = Except.ok (taOf 20) ∧
    w4res.analyzerCalled = true ∧
    0 ≤ (taOf 20).employee_count ∧
    ((taOf 20).employee_count = 0 → w4res.disp = Disposition.mrTeamParseFailed) ∧
    (1 ≤ (taOf 20).employee_count ∧ (taOf 20).employee_count < 5 →
      w4res.disp = Disposition.dqTeamTooSmall ∧
      w4res.record.numberOfEmployees = (taOf 20).employee_count) ∧
    (5 ≤ (taOf 20).employee_count →
      w4res.disp = Disposition.approved ∧
      w4res.record.numberOfEmployees = (taOf 20).employee_count ∧
      w4res.record.companyOwner = some (tierOwner (taOf 20).employee_count) ∧
      ((taOf 20).employee_count < 16 → w4res.record.companyOwner = some "James") ∧
      (16 ≤ (taOf 20).employee_count ∧ (taOf 20).employee_count < 100 →
        w4res.record.companyOwner = some "Ellinor") ∧
      (100 ≤ (taOf 20).employee_count → w4res.record.companyOwner = some "Matt")) := by
  have hmain := C4_team_size_rules rowA collabTeam20 w4res (taOf 20)
    (by decide) (by decide) (by decide) (by decide)
  exact ⟨by decide, by decide, by decide, by decide, hmain.1, hmain.2.1, hmain.2.2⟩

/-- Concrete loop outcome of rowA with collabIrr (Irrelevant DQ). -/
def w5res : StepResult :=
  ⟨dqUpdate (initResult rowA), Disposition.dqIrrelevant, true, true, false, false⟩

/-- Witness for C5 at is_relevant false and confidence 0.9. -/
theorem C5_irrelevant_threshold_witness :
    processCompanyStep rowA collabIrr = Except.ok w5res ∧
    collabIrr.relevance = Except.ok raIrr ∧
    w5res.classifierCalled = true ∧
    (raIrr.is_relevant = false →
      (w5res.disp = Disposition.dqIrrelevant ↔ confThreshold < raIrr.confidence)) ∧
    (raIrr.is_relevant = false → raIrr.confidence = confThreshold →
      w5res.disp ≠ Disposition.dqIrrelevant) ∧
    (raIrr.is_relevant = true → w5res.disp ≠ Disposition.dqIrrelevant) := by
  have hmain := C5_irrelevant_threshold rowA collabIrr w5res raIrr
    (by decide) (by decide) (by decide)
  exact ⟨by decide, by decide, by decide, hmain.1, hmain.2.1, hmain.2.2⟩

/-- Concrete loop outcome of rowNoWeb with collabDummy (NoWebsite DQ). -/
def w6res : StepResult :=
  ⟨dqUpdate (initResult rowNoWeb), Disposition.dqNoWebsite, false, false, false, false⟩

/-- Witness for C6 at a NoWebsite disqualification. -/
theorem C6_disposition_field_frame_witness :
    processCompanyStep rowNoWeb collabDummy = Except.ok w6res ∧
    ((w6res.disp = Disposition.dqNoWebsite ∨ w6res.disp = Disposition.dqScrapeFailed ∨
      w6res.disp = Disposition.dqIrrelevant ∨ w6res.disp = Disposition.dqTeamTooSmall) →
      w6res.record.lifecycleStage = some "other" ∧
      w6res.record.companyOwner = some "no owner" ∧
      w6res.record.sector = some "n/a" ∧ w6res.record.typ = some "other") ∧
    ((w6res.disp = Disposition.mrClassifierError ∨ w6res.disp = Disposition.mrNoTeamData ∨
      w6res.disp = Disposition.mrTeamParseFailed ∨ w6res.disp = Disposition.mrAnalyzerError ∨
      w6res.disp = Disposition.approved) →
      w6res.record.lifecycleStage = rowNoWeb.lifecycleStage ∧
      w6res.record.sector = rowNoWeb.sector ∧ w6res.record.typ = rowNoWeb.typ) ∧
    (w6res.disp = Disposition.approved →
      Except.map (fun ta => some (tierOwner ta.employee_count)) collabDummy.team =
        Except.ok w6res.record.companyOwner) := by
  have hmain := C6_disposition_field_frame rowNoWeb collabDummy w6res (by decide)
  exact ⟨by decide, hmain.1, hmain.2.1, hmain.2.2⟩

/-- Witness for C7 (amended) with a returning scraper and a raising
classifier. -/
theorem C7_no_throw_when_scraper_returns_witness :
    collabRelErr.scrape = Except.ok scrOk ∧
    (∃ res, processCompanyStep rowA collabRelErr = Except.ok res ∧
      (isErr collabRelErr.relevance = true → res.classifierCalled = true →
        res.disp = Disposition.mrClassifierError) ∧
      (isErr collabRelErr.team = true → res.analyzerCalled = true →
        res.disp = Disposition.mrAnalyzerError)) :=
  ⟨rfl, C7_no_throw_when_scraper_returns rowA collabRelErr scrOk rfl⟩

/-- Concrete loop outcome of rowNoWeb with collabDummy, for C8. -/
def w8res : StepResult :=
  ⟨dqUpdate (initResult rowNoWeb), Disposition.dqNoWebsite, false, false, false, false⟩

/-- Witness for C8 at a NoWebsite disqualification. -/
theorem C8_short_circuit_witness :
    processCompanyStep rowNoWeb collabDummy = Except.ok w8res ∧
    (w8res.disp = Disposition.dqNoWebsite →
      w8res.scrapeCalled = false ∧ w8res.classifierCalled = false ∧
      w8res.analyzerCalled = false) ∧
    (w8res.disp = Disposition.dqScrapeFailed →
      w8res.classifierCalled = false ∧ w8res.analyzerCalled = false) ∧
    (w8res.disp = Disposition.dqIrrelevant → w8res.analyzerCalled = false) ∧
    (w8res.disp = Disposition.mrNoTeamData → w8res.analyzerCalled = false) := by
  have hmain := C8_short_circuit rowNoWeb collabDummy w8res (by decide)
  exact ⟨by decide, hmain.1, hmain.2.1, hmain.2.2.1, hmain.2.2.2⟩

/-- Concrete loop outcome of rowA with collabNeg (approved at count -3). -/
def w10res : StepResult :=
  ⟨applyContact raRel { initResult rowA with
      companyOwner := some (tierOwner (-3)), numberOfEmployees := -3 },
    Disposition.approved, true, true, true, true⟩

/-- Witness for C10 at employee count -3. -/
theorem C10_negative_count_approves_witness :
    processCompanyStep rowA collabNeg = Except.ok w10res ∧
    collabNeg.team = Except.ok (taOf (-3)) ∧
    w10res.analyzerCalled = true ∧
    (taOf (-3)).employee_count < 0 ∧
    (w10res.disp = Disposition.approved ∧
     w10res.record.companyOwner = some "James" ∧
     w10res.record.numberOfEmployees = (taOf (-3)).employee_count) :=
  ⟨by decide, by decide, by decide, by decide,
    C10_negative_count_approves rowA collabNeg w10res (taOf (-3))
      (by decide) (by decide) (by decide) (by decide)⟩

/-- A base record for the C2 witness run state. -/
def w2rec : OutputRec := initResult rowA

/-- Run state holding nine accumulated records and no checkpoint. -/
def w2st : RunState := ⟨List.replicate 9 w2rec, [], []⟩

/-- Loop outcome of rowB with collabTeam20 (approved, falls through). -/
def w2sr : StepResult :=
  ⟨applyContact raRel { initResult rowB with
      companyOwner := some (tierOwner 20), numberOfEmployees := 20 },
    Disposition.approved, true, true, true, true⟩

/-- Run state after the tenth, falling-through company: the record is
appended and a checkpoint of all ten records is written. -/
def w2st2 : RunState :=
  ⟨w2st.results ++ [w2sr.record], [(10, w2st.results ++ [w2sr.record])], [w2sr]⟩

/-- Witness for C2 (amended) at a tenth company that falls through. -/
theorem C2_checkpoint_rule_witness :
    runStep w2st (rowB, collabTeam20) = Except.ok w2st2 ∧
    (∃ sr, processCompanyStep rowB collabTeam20 = Except.ok sr ∧
      w2st2.results = w2st.results ++ [sr.record] ∧
      (sr.fellThrough = true ↔
        (sr.disp = Disposition.dqTeamTooSmall ∨ sr.disp = Disposition.mrTeamParseFailed ∨
         sr.disp = Disposition.mrAnalyzerError ∨ sr.disp = Disposition.approved)) ∧
      (sr.fellThrough = true ∧ (w2st.results.length + 1) % 10 = 0 →
        w2st2.checkpoints = w2st.checkpoints ++
          [(w2st.results.length + 1, w2st2.results)]) ∧
      (sr.fellThrough = false ∨ (w2st.results.length + 1) % 10 ≠ 0 →
        w2st2.checkpoints = w2st.checkpoints)) :=
  ⟨by decide, C2_checkpoint_rule w2st (rowB, collabTeam20) w2st2 (by decide)⟩

/-- Witness for C9 (amended) at a concrete oracle. -/
theorem C9_empty_inputs_skip_llm_witness :
    analyze_team_members ⟨"", ""⟩ (fun _ => ⟨7, 1, ["Ann Bee"]⟩) = (⟨0, 0, []⟩, false) :=
  C9_empty_inputs_skip_llm (fun _ => ⟨7, 1, ["Ann Bee"]⟩)
